import Mathlib

/-!
# Verification of `hourly`'s BTCPay module (`src/hourly/invoice/btcpay.py`)

A shallow embedding of the module's two components:

* `get_btcpay_invoice` / `get_btcpay_client` — the Invoice Resolver, which
  fills in the `price`, `itemDesc` and `currency` fields of the configured
  invoice under a precedence order, asks for confirmation, and submits the
  invoice to the remote service;
* `initialize_btcpay` — the interactive Pairing Controller.

Modelling conventions:

* Numbers (wage, hours worked, price) are embedded as exact rationals `ℚ`;
  the `float(...)` conversion on line 83 of the source is the identity under
  this embedding (the source introduces no rounding of its own).
* The mutable OmegaConf configuration tree is threaded explicitly: every
  stateful function returns the final configuration alongside its result.
* `sys.exit()` calls and raised `IOError`s are values of an explicit exit
  type; the spec-level error names map to code paths as follows:
  `MissingCompensationError` is the `IOError` "No compensation provided.",
  `UnresolvableFieldError("price")` is the `IOError`
  "Must specify compensation wage or invoice.price",
  `UnresolvableFieldError("currency")` is the `IOError`
  "Must specify invoice.currency (e.g. USD, BTC) or compensation currency",
  `InvalidPairingCodeError` is the `sys.exit` after
  "Pairing code is not 7 digits!", and `FileExistsError` is the `sys.exit`
  after "File already exists! Exiting.".
* The filesystem is a map `String → Option String` from paths to contents;
  remote collaborators (`create_invoice`, `pair_client`,
  `crypto.generate_privkey`), the prompt answers, and
  `hydra.utils.to_absolute_path` are parameters.
* Every remote call made during a run is recorded in a trace, so "no remote
  call occurs" is the statement that the trace is empty.
-/

/-- Modelled from the spec: `labor` is an opaque record consumed only through
the two pure functions `hoursWorked(labor) -> number` and
`laborDescription(labor) -> string` (`get_hours_worked` and
`get_labor_description` live in `hourly.hourly`, outside this module). -/
structure Labor where
  hours : ℚ
  description : String
deriving DecidableEq, Repr

/-- Modelled from the spec: `hoursWorked(labor) -> number`, the external pure
function `get_hours_worked` imported from `hourly.hourly`. -/
def get_hours_worked (labor : Labor) : ℚ := labor.hours

/-- Modelled from the spec: `laborDescription(labor) -> string`, the external
pure function `get_labor_description` imported from `hourly.hourly`. -/
def get_labor_description (labor : Labor) : String := labor.description

/-- `{wage: number|null, currency: string|null}`; read-only input. -/
structure Compensation where
  wage : Option ℚ
  currency : Option String
deriving DecidableEq, Repr

/-- The `invoice:` sub-tree of the btcpay configuration: the three fields
subject to resolution logic.  The remaining fields (`orderId`,
`notificationURL`, `buyer`, ...) pass through unchanged from configuration
and are not inspected by any code path, so they are not modelled. -/
structure InvoiceCfg where
  price : Option ℚ
  currency : Option String
  itemDesc : Option String
deriving DecidableEq, Repr

/-- The `tokens:` mapping of the btcpay configuration (`role ↦ token`);
only the `merchant` role is ever read by the source. -/
structure Tokens where
  merchant : Option String
deriving DecidableEq, Repr

/-- The `cfg.invoice.btcpay` sub-tree. -/
structure BtcpayCfg where
  host : String
  tokens : Tokens
  pem : String
  return_status : Bool
  invoice : InvoiceCfg
deriving DecidableEq, Repr

/-- The `cfg.invoice` sub-tree: the btcpay configuration lives at
`cfg.invoice.btcpay`. -/
structure InvoiceRoot where
  btcpay : BtcpayCfg
deriving DecidableEq, Repr

/-- The configuration tree `cfg`, restricted to the keys this module reads. -/
structure HourlyCfg where
  invoice : InvoiceRoot
deriving DecidableEq, Repr

/-- The `BTCPayClient(host=..., pem=..., tokens=...)` value constructed by the
external `btcpay` library; `tokens = none` models the two-argument
construction in `initialize_btcpay`. -/
structure BTCPayClient where
  host : String
  pem : String
  tokens : Option Tokens
deriving DecidableEq, Repr

/-- Opaque mirror of whatever the remote service returns from
`create_invoice` (invoice id, status, payment URL, ...), uninterpreted. -/
structure InvoiceResult where
  fields : List (String × String)
deriving DecidableEq, Repr

/-- A remote call observed during a run. -/
inductive RemoteCall where
  | createInvoice (payload : InvoiceCfg)
  | pairClient (code : String)
deriving DecidableEq, Repr

/-- How a run of `get_btcpay_invoice` terminates abnormally: a raised
`IOError` with its message, or a `sys.exit()`. -/
inductive RunExit where
  | ioError (msg : String)
  | sysExit
deriving DecidableEq, Repr

/-- Python's `str.lower()` on prompt answers, modelled as character-wise
ASCII lower-casing. -/
def pyLower (s : String) : String := ⟨s.data.map Char.toLower⟩

/-- `get_btcpay_client(cfg)` (source lines 113–135): rebuilds the client from
`cfg.invoice.btcpay`.  If a file exists at the absolutized `pem` path, its
contents replace the configured `pem` string in the client (a local
rebinding only — the configuration itself is returned unchanged). -/
def get_btcpay_client (cfg : HourlyCfg) (fs : String → Option String)
    (absPath : String → String) : BTCPayClient × HourlyCfg :=
  let host := cfg.invoice.btcpay.host
  let pem := cfg.invoice.btcpay.pem
  let tokens := Tokens.mk cfg.invoice.btcpay.tokens.merchant
  let pem_filename := absPath cfg.invoice.btcpay.pem
  let pem := match fs pem_filename with
    | some contents => contents
    | none => pem
  (BTCPayClient.mk host pem (some tokens), cfg)

/-- Source lines 80–86: if `invoice.price` is None, set it to
`float(hours_worked * compensation.wage)` when the wage is set, else raise
`IOError("Must specify compensation wage or invoice.price")`. -/
def resolve_price (inv : InvoiceCfg) (comp : Compensation)
    (hours_worked : ℚ) : Except String InvoiceCfg :=
  match inv.price with
  | some _ => .ok inv
  | none =>
    match comp.wage with
    | some wage => .ok { inv with price := some (hours_worked * wage) }
    | none => .error "Must specify compensation wage or invoice.price"

/-- Source lines 88–89: if `invoice.itemDesc` is None, set it to
`get_labor_description(labor)`; never fails. -/
def resolve_itemDesc (inv : InvoiceCfg) (labor : Labor) : InvoiceCfg :=
  match inv.itemDesc with
  | some _ => inv
  | none => { inv with itemDesc := some (get_labor_description labor) }

/-- Source lines 91–95: if `invoice.currency` is None, set it to
`compensation.currency` when that is set, else raise
`IOError("Must specify invoice.currency (e.g. USD, BTC) or compensation currency")`. -/
def resolve_currency (inv : InvoiceCfg) (comp : Compensation) :
    Except String InvoiceCfg :=
  match inv.currency with
  | some _ => .ok inv
  | none =>
    match comp.currency with
    | some c => .ok { inv with currency := some c }
    | none =>
      .error "Must specify invoice.currency (e.g. USD, BTC) or compensation currency"

/-- Replace the `cfg.invoice.btcpay.invoice` sub-tree (the in-place field
assignments of the source, made explicit). -/
def set_invoice (cfg : HourlyCfg) (inv : InvoiceCfg) : HourlyCfg :=
  { cfg with invoice.btcpay.invoice := inv }

/-- `get_btcpay_invoice(cfg, labor, current_user, compensation)` (source
lines 68–111).  Returns the outcome, the final configuration tree, and the
trace of remote calls.  `user_confirms` is the answer typed at the
"Is this correct? (yes/n)" prompt; `create_invoice` is the remote
collaborator.  Field-resolution errors are raised before the corresponding
assignment, so the configuration returned on a price error is untouched,
while a currency error leaves price and itemDesc already committed. -/
def get_btcpay_invoice (cfg : HourlyCfg) (labor : Labor)
    (current_user : String) (compensation : Option Compensation)
    (fs : String → Option String) (absPath : String → String)
    (user_confirms : String) (create_invoice : InvoiceCfg → InvoiceResult) :
    Except RunExit InvoiceResult × HourlyCfg × List RemoteCall :=
  match compensation with
  | none => (.error (.ioError "No compensation provided."), cfg, [])
  | some comp =>
    let clientCfg := get_btcpay_client cfg fs absPath
    let cfg := clientCfg.2
    let hours_worked := get_hours_worked labor
    match resolve_price cfg.invoice.btcpay.invoice comp hours_worked with
    | .error msg => (.error (.ioError msg), cfg, [])
    | .ok inv1 =>
      let inv2 := resolve_itemDesc inv1 labor
      let cfg := set_invoice cfg inv2
      match resolve_currency cfg.invoice.btcpay.invoice comp with
      | .error msg => (.error (.ioError msg), cfg, [])
      | .ok inv3 =>
        let cfg := set_invoice cfg inv3
        if pyLower user_confirms ≠ "yes" then
          (.error .sysExit, cfg, [])
        else
          let result := create_invoice cfg.invoice.btcpay.invoice
          (.ok result, cfg, [RemoteCall.createInvoice cfg.invoice.btcpay.invoice])

/-- The answer typed at each interactive prompt of `initialize_btcpay`, in
the order the source asks: host (line 147), whether to generate a key
(line 156), whether to save it (line 166), the key filename (line 169),
the pairing code (line 188), whether to save the configuration (line 196),
and the configuration filename (line 198). -/
structure InitInputs where
  host : String
  generate_privkey : String
  save_privkey : String
  pem_file : String
  pairing_code : String
  save_configuration : String
  btcpay_filename : String
deriving DecidableEq, Repr

/-- Which `sys.exit()` of `initialize_btcpay` ended the run: the blank-host
exit (line 152), the "File already exists! Exiting." exit (line 175), or
the "Pairing code is not 7 digits!" exit (line 191).  `FileExistsError` and
`InvalidPairingCodeError` of the spec name the last two paths. -/
inductive InitExit where
  | emptyHost
  | fileExists
  | invalidPairingCode
deriving DecidableEq, Repr

/-- Outcome of a run of `initialize_btcpay`: the exit taken (`none` for
normal completion), the final configuration tree, the final filesystem, and
the trace of pairing codes sent to the remote `pair_client`. -/
structure InitResult where
  exit : Option InitExit
  cfg : HourlyCfg
  fs : String → Option String
  pairCalls : List String

/-- Whole-buffer file write: the filesystem after `open(p, 'w')` followed by
`write(contents)`. -/
def fsWrite (fs : String → Option String) (p contents : String) :
    String → Option String :=
  fun q => if q = p then some contents else fs q

/-- Source lines 156–183: the key-generation step of `initialize_btcpay`.
If the operator answers yes, the remote `crypto.generate_privkey()` result
is committed as `btcpay.pem`; if they then answer yes to saving, the key
filename defaults to `btcpayserver.pem` on blank input, and an existing
file at that path ends the run ("File already exists! Exiting.",
`sys.exit`) without any write.  Returns the updated configuration, the
filesystem after any key write, and whether the run aborted. -/
def generate_key_step (cfg : HourlyCfg) (inputs : InitInputs)
    (fs : String → Option String) (generated_pem : String) :
    HourlyCfg × (String → Option String) × Bool :=
  if pyLower inputs.generate_privkey = "yes" then
    let cfg := { cfg with invoice.btcpay.pem := generated_pem }
    if inputs.save_privkey = "yes" then
      let pem_file :=
        if inputs.pem_file.length = 0 then "btcpayserver.pem"
        else inputs.pem_file
      if (fs pem_file).isSome then
        (cfg, fs, true)
      else
        (cfg, fsWrite fs pem_file cfg.invoice.btcpay.pem, false)
    else
      (cfg, fs, false)
  else
    (cfg, fs, false)

/-- `initialize_btcpay(cfg)` (source lines 138–205), with the prompt answers,
the filesystem, the generated PEM string (result of the remote
`crypto.generate_privkey()`), the remote `pair_client`, and the OmegaConf
`pretty()` serializer passed explicitly.  Faithful details: the host is
assigned into the configuration (line 149) before its emptiness is checked
(line 151); the key-filename prompt substitutes the default
`btcpayserver.pem` for blank input (lines 170–171), but the
configuration-filename prompt applies no such default (lines 198–199)
despite its "leave blank for btcpay.yaml" wording; the save-key answer is
compared to "yes" without lower-casing (line 168), unlike the other
yes/no prompts. -/
def initialize_btcpay (cfg : HourlyCfg) (inputs : InitInputs)
    (fs : String → Option String) (generated_pem : String)
    (pair_client : String → Tokens) (prettyFn : BtcpayCfg → String) :
    InitResult :=
  let host := inputs.host
  let cfg := { cfg with invoice.btcpay.host := host }
  if cfg.invoice.btcpay.host.length = 0 then
    ⟨some .emptyHost, cfg, fs, []⟩
  else
    let step := generate_key_step cfg inputs fs generated_pem
    let cfg := step.1
    let fs := step.2.1
    if step.2.2 then
      ⟨some .fileExists, cfg, fs, []⟩
    else
      let _client :=
        BTCPayClient.mk cfg.invoice.btcpay.host cfg.invoice.btcpay.pem none
      if inputs.pairing_code.length ≠ 7 then
        ⟨some .invalidPairingCode, cfg, fs, []⟩
      else
        let cfg :=
          { cfg with invoice.btcpay.tokens := pair_client inputs.pairing_code }
        if pyLower inputs.save_configuration = "yes" then
          let btcpay_filename := inputs.btcpay_filename
          let fs := fsWrite fs btcpay_filename (prettyFn cfg.invoice.btcpay)
          ⟨none, cfg, fs, [inputs.pairing_code]⟩
        else
          ⟨none, cfg, fs, [inputs.pairing_code]⟩

/-! ## Helper lemmas about the resolution steps -/

theorem get_btcpay_client_cfg (cfg : HourlyCfg) (fs : String → Option String)
    (absPath : String → String) : (get_btcpay_client cfg fs absPath).2 = cfg := rfl

theorem set_invoice_get (cfg : HourlyCfg) (inv : InvoiceCfg) :
    (set_invoice cfg inv).invoice.btcpay.invoice = inv := rfl

theorem resolve_price_of_explicit (inv : InvoiceCfg) (comp : Compensation)
    (hw : ℚ) (p : ℚ) (hp : inv.price = some p) :
    resolve_price inv comp hw = Except.ok inv := by
  unfold resolve_price; rw [hp]

theorem resolve_price_of_wage (inv : InvoiceCfg) (comp : Compensation)
    (hw : ℚ) (w : ℚ) (hp : inv.price = none) (hwage : comp.wage = some w) :
    resolve_price inv comp hw = Except.ok { inv with price := some (hw * w) } := by
  unfold resolve_price; rw [hp, hwage]

theorem resolve_price_unresolvable (inv : InvoiceCfg) (comp : Compensation)
    (hw : ℚ) (hp : inv.price = none) (hwage : comp.wage = none) :
    resolve_price inv comp hw =
      Except.error "Must specify compensation wage or invoice.price" := by
  unfold resolve_price; rw [hp, hwage]

theorem resolve_price_ok_of_resolvable (inv : InvoiceCfg) (comp : Compensation)
    (hw : ℚ) (h : inv.price ≠ none ∨ comp.wage ≠ none) :
    ∃ inv', resolve_price inv comp hw = Except.ok inv' ∧
      inv'.currency = inv.currency := by
  rcases hp : inv.price with _ | p
  · rcases hwage : comp.wage with _ | w
    · simp [hp, hwage] at h
    · exact ⟨_, resolve_price_of_wage inv comp hw w hp hwage, rfl⟩
  · exact ⟨inv, resolve_price_of_explicit inv comp hw p hp, rfl⟩

theorem resolve_itemDesc_price (inv : InvoiceCfg) (labor : Labor) :
    (resolve_itemDesc inv labor).price = inv.price := by
  unfold resolve_itemDesc; rcases inv.itemDesc <;> rfl

theorem resolve_itemDesc_currency (inv : InvoiceCfg) (labor : Labor) :
    (resolve_itemDesc inv labor).currency = inv.currency := by
  unfold resolve_itemDesc; rcases inv.itemDesc <;> rfl

theorem resolve_currency_of_explicit (inv : InvoiceCfg) (comp : Compensation)
    (c : String) (hc : inv.currency = some c) :
    resolve_currency inv comp = Except.ok inv := by
  unfold resolve_currency; rw [hc]

theorem resolve_currency_of_comp (inv : InvoiceCfg) (comp : Compensation)
    (cc : String) (hc : inv.currency = none) (hcc : comp.currency = some cc) :
    resolve_currency inv comp = Except.ok { inv with currency := some cc } := by
  unfold resolve_currency; rw [hc, hcc]

theorem resolve_currency_unresolvable (inv : InvoiceCfg) (comp : Compensation)
    (hc : inv.currency = none) (hcc : comp.currency = none) :
    resolve_currency inv comp =
      Except.error
        "Must specify invoice.currency (e.g. USD, BTC) or compensation currency" := by
  unfold resolve_currency; rw [hc, hcc]

theorem resolve_currency_ok_price (inv : InvoiceCfg) (comp : Compensation)
    (inv' : InvoiceCfg) (h : resolve_currency inv comp = Except.ok inv') :
    inv'.price = inv.price := by
  rcases hc : inv.currency with _ | c
  · rcases hcc : comp.currency with _ | cc
    · rw [resolve_currency_unresolvable inv comp hc hcc] at h
      cases h
    · rw [resolve_currency_of_comp inv comp cc hc hcc] at h
      cases h; rfl
  · rw [resolve_currency_of_explicit inv comp c hc] at h
    cases h; rfl

/-- Characterization of `get_btcpay_invoice` on a present compensation,
as the composite of the three resolution steps. -/
theorem get_btcpay_invoice_some (cfg : HourlyCfg) (labor : Labor) (u : String)
    (comp : Compensation) (fs : String → Option String)
    (ap : String → String) (uc : String)
    (ci : InvoiceCfg → InvoiceResult) :
    get_btcpay_invoice cfg labor u (some comp) fs ap uc ci =
      match resolve_price cfg.invoice.btcpay.invoice comp
          (get_hours_worked labor) with
      | .error msg => (Except.error (RunExit.ioError msg), cfg, [])
      | .ok inv1 =>
        match resolve_currency (resolve_itemDesc inv1 labor) comp with
        | .error msg =>
          (Except.error (RunExit.ioError msg),
            set_invoice cfg (resolve_itemDesc inv1 labor), [])
        | .ok inv3 =>
          if pyLower uc ≠ "yes" then
            (Except.error RunExit.sysExit, set_invoice cfg inv3, [])
          else
            (Except.ok (ci inv3), set_invoice cfg inv3,
              [RemoteCall.createInvoice inv3]) := rfl

theorem get_btcpay_invoice_price_ok (cfg : HourlyCfg) (labor : Labor)
    (u : String) (comp : Compensation) (fs : String → Option String)
    (ap : String → String) (uc : String) (ci : InvoiceCfg → InvoiceResult)
    (inv1 : InvoiceCfg)
    (h1 : resolve_price cfg.invoice.btcpay.invoice comp
        (get_hours_worked labor) = Except.ok inv1) :
    get_btcpay_invoice cfg labor u (some comp) fs ap uc ci =
      match resolve_currency (resolve_itemDesc inv1 labor) comp with
      | .error msg =>
        (Except.error (RunExit.ioError msg),
          set_invoice cfg (resolve_itemDesc inv1 labor), [])
      | .ok inv3 =>
        if pyLower uc ≠ "yes" then
          (Except.error RunExit.sysExit, set_invoice cfg inv3, [])
        else
          (Except.ok (ci inv3), set_invoice cfg inv3,
            [RemoteCall.createInvoice inv3]) := by
  rw [get_btcpay_invoice_some, h1]

theorem get_btcpay_invoice_currency_ok (cfg : HourlyCfg) (labor : Labor)
    (u : String) (comp : Compensation) (fs : String → Option String)
    (ap : String → String) (uc : String) (ci : InvoiceCfg → InvoiceResult)
    (inv1 inv3 : InvoiceCfg)
    (h1 : resolve_price cfg.invoice.btcpay.invoice comp
        (get_hours_worked labor) = Except.ok inv1)
    (h3 : resolve_currency (resolve_itemDesc inv1 labor) comp =
        Except.ok inv3) :
    get_btcpay_invoice cfg labor u (some comp) fs ap uc ci =
      if pyLower uc ≠ "yes" then
        (Except.error RunExit.sysExit, set_invoice cfg inv3, [])
      else
        (Except.ok (ci inv3), set_invoice cfg inv3,
          [RemoteCall.createInvoice inv3]) := by
  rw [get_btcpay_invoice_price_ok cfg labor u comp fs ap uc ci inv1 h1, h3]

theorem get_btcpay_invoice_currency_err (cfg : HourlyCfg) (labor : Labor)
    (u : String) (comp : Compensation) (fs : String → Option String)
    (ap : String → String) (uc : String) (ci : InvoiceCfg → InvoiceResult)
    (inv1 : InvoiceCfg) (msg : String)
    (h1 : resolve_price cfg.invoice.btcpay.invoice comp
        (get_hours_worked labor) = Except.ok inv1)
    (h3 : resolve_currency (resolve_itemDesc inv1 labor) comp =
        Except.error msg) :
    get_btcpay_invoice cfg labor u (some comp) fs ap uc ci =
      (Except.error (RunExit.ioError msg),
        set_invoice cfg (resolve_itemDesc inv1 labor), []) := by
  rw [get_btcpay_invoice_price_ok cfg labor u comp fs ap uc ci inv1 h1, h3]

/-! ## Claim theorems: Invoice Resolver -/

/-- C1: For every configuration in which `invoice.price` is explicitly set
(non-null), `get_btcpay_invoice` produces a request whose price equals that
configured value, regardless of `get_hours_worked(labor)` and
`compensation.wage`: the price field of the final configuration equals the
configured value, and so does the price of every payload handed to the
remote `create_invoice`. -/
theorem price_explicit_wins (cfg : HourlyCfg) (labor : Labor) (u : String)
    (comp : Compensation) (fs : String → Option String)
    (ap : String → String) (uc : String) (ci : InvoiceCfg → InvoiceResult)
    (p : ℚ) (hp : cfg.invoice.btcpay.invoice.price = some p) :
    (get_btcpay_invoice cfg labor u (some comp) fs ap uc
        ci).2.1.invoice.btcpay.invoice.price = some p ∧
    ∀ payload, RemoteCall.createInvoice payload ∈
        (get_btcpay_invoice cfg labor u (some comp) fs ap uc ci).2.2 →
      payload.price = some p := by
  have h1 := resolve_price_of_explicit cfg.invoice.btcpay.invoice comp
    (get_hours_worked labor) p hp
  have hp2 : (resolve_itemDesc cfg.invoice.btcpay.invoice labor).price = some p := by
    rw [resolve_itemDesc_price]; exact hp
  rcases hrc : resolve_currency
      (resolve_itemDesc cfg.invoice.btcpay.invoice labor) comp with msg | inv3
  · rw [get_btcpay_invoice_currency_err cfg labor u comp fs ap uc ci _ msg h1 hrc]
    refine ⟨?_, ?_⟩
    · rw [set_invoice_get]; exact hp2
    · intro payload hmem
      simp at hmem
  · have hp3 : inv3.price = some p := by
      rw [resolve_currency_ok_price _ comp inv3 hrc]; exact hp2
    rw [get_btcpay_invoice_currency_ok cfg labor u comp fs ap uc ci _ inv3 h1 hrc]
    split
    · refine ⟨?_, ?_⟩
      · rw [set_invoice_get]; exact hp3
      · intro payload hmem
        simp at hmem
    · refine ⟨?_, ?_⟩
      · rw [set_invoice_get]; exact hp3
      · intro payload hmem
        simp only [List.mem_singleton, RemoteCall.createInvoice.injEq] at hmem
        rw [hmem]; exact hp3

/-- C1 witness: a concrete configuration with `invoice.price = 1/2`
explicitly set against `wage = 999`, 5 hours worked, confirmation "yes":
the resolved price is the configured 1/2, not 4995. -/
theorem price_explicit_wins_witness :
    (⟨⟨⟨"h", ⟨some "t"⟩, "k.pem", false,
        ⟨some (1/2 : ℚ), some "BTC", some "d"⟩⟩⟩⟩ :
      HourlyCfg).invoice.btcpay.invoice.price = some (1/2 : ℚ) ∧
    ((get_btcpay_invoice
        ⟨⟨⟨"h", ⟨some "t"⟩, "k.pem", false,
          ⟨some (1/2 : ℚ), some "BTC", some "d"⟩⟩⟩⟩
        ⟨5, "d"⟩ "alice" (some ⟨some 999, some "BTC"⟩) (fun _ => none) id
        "yes" (fun _ => ⟨[]⟩)).2.1.invoice.btcpay.invoice.price =
      some (1/2 : ℚ) ∧
    ∀ payload, RemoteCall.createInvoice payload ∈
        (get_btcpay_invoice
          ⟨⟨⟨"h", ⟨some "t"⟩, "k.pem", false,
            ⟨some (1/2 : ℚ), some "BTC", some "d"⟩⟩⟩⟩
          ⟨5, "d"⟩ "alice" (some ⟨some 999, some "BTC"⟩) (fun _ => none) id
          "yes" (fun _ => ⟨[]⟩)).2.2 →
      payload.price = some (1/2 : ℚ)) :=
  ⟨rfl, price_explicit_wins
    ⟨⟨⟨"h", ⟨some "t"⟩, "k.pem", false,
      ⟨some (1/2 : ℚ), some "BTC", some "d"⟩⟩⟩⟩
    ⟨5, "d"⟩ "alice" ⟨some 999, some "BTC"⟩ (fun _ => none) id
    "yes" (fun _ => ⟨[]⟩) (1/2 : ℚ) rfl⟩

/-- C2: when `invoice.price` is unset and `compensation.wage` is set, the
resolved price is exactly `get_hours_worked(labor) * compensation.wage`
(an exact rational product — the component introduces no rounding): the
final configuration's price field carries that product and so does every
payload handed to the remote `create_invoice`. -/
theorem price_from_wage (cfg : HourlyCfg) (labor : Labor) (u : String)
    (comp : Compensation) (fs : String → Option String)
    (ap : String → String) (uc : String) (ci : InvoiceCfg → InvoiceResult)
    (w : ℚ) (hp : cfg.invoice.btcpay.invoice.price = none)
    (hw : comp.wage = some w) :
    (get_btcpay_invoice cfg labor u (some comp) fs ap uc
        ci).2.1.invoice.btcpay.invoice.price =
      some (get_hours_worked labor * w) ∧
    ∀ payload, RemoteCall.createInvoice payload ∈
        (get_btcpay_invoice cfg labor u (some comp) fs ap uc ci).2.2 →
      payload.price = some (get_hours_worked labor * w) := by
  have h1 := resolve_price_of_wage cfg.invoice.btcpay.invoice comp
    (get_hours_worked labor) w hp hw
  have hp2 : (resolve_itemDesc
      { cfg.invoice.btcpay.invoice with
          price := some (get_hours_worked labor * w) } labor).price =
      some (get_hours_worked labor * w) := by
    rw [resolve_itemDesc_price]
  rcases hrc : resolve_currency
      (resolve_itemDesc
        { cfg.invoice.btcpay.invoice with
            price := some (get_hours_worked labor * w) } labor) comp
      with msg | inv3
  · rw [get_btcpay_invoice_currency_err cfg labor u comp fs ap uc ci _ msg h1 hrc]
    refine ⟨?_, ?_⟩
    · rw [set_invoice_get]; exact hp2
    · intro payload hmem
      simp at hmem
  · have hp3 : inv3.price = some (get_hours_worked labor * w) := by
      rw [resolve_currency_ok_price _ comp inv3 hrc]; exact hp2
    rw [get_btcpay_invoice_currency_ok cfg labor u comp fs ap uc ci _ inv3 h1 hrc]
    split
    · refine ⟨?_, ?_⟩
      · rw [set_invoice_get]; exact hp3
      · intro payload hmem
        simp at hmem
    · refine ⟨?_, ?_⟩
      · rw [set_invoice_get]; exact hp3
      · intro payload hmem
        simp only [List.mem_singleton, RemoteCall.createInvoice.injEq] at hmem
        rw [hmem]; exact hp3

/-- C2 witness: the spec scenario — 5 hours worked, `wage = 20`,
`invoice.price` unset, confirmation "yes" — yields resolved price 100. -/
theorem price_from_wage_witness :
    (⟨⟨⟨"h", ⟨some "t"⟩, "k.pem", false, ⟨none, none, none⟩⟩⟩⟩ :
      HourlyCfg).invoice.btcpay.invoice.price = none ∧
    (⟨some 20, some "USD"⟩ : Compensation).wage = some 20 ∧
    ((get_btcpay_invoice
        ⟨⟨⟨"h", ⟨some "t"⟩, "k.pem", false, ⟨none, none, none⟩⟩⟩⟩
        ⟨5, "d"⟩ "alice" (some ⟨some 20, some "USD"⟩) (fun _ => none) id
        "yes" (fun _ => ⟨[]⟩)).2.1.invoice.btcpay.invoice.price =
      some (get_hours_worked ⟨5, "d"⟩ * 20) ∧
    ∀ payload, RemoteCall.createInvoice payload ∈
        (get_btcpay_invoice
          ⟨⟨⟨"h", ⟨some "t"⟩, "k.pem", false, ⟨none, none, none⟩⟩⟩⟩
          ⟨5, "d"⟩ "alice" (some ⟨some 20, some "USD"⟩) (fun _ => none) id
          "yes" (fun _ => ⟨[]⟩)).2.2 →
      payload.price = some (get_hours_worked ⟨5, "d"⟩ * 20)) :=
  ⟨rfl, rfl, price_from_wage
    ⟨⟨⟨"h", ⟨some "t"⟩, "k.pem", false, ⟨none, none, none⟩⟩⟩⟩
    ⟨5, "d"⟩ "alice" ⟨some 20, some "USD"⟩ (fun _ => none) id
    "yes" (fun _ => ⟨[]⟩) 20 rfl rfl⟩

/-- C3: when both `invoice.price` and `compensation.wage` are unset, the run
fails with the `IOError` "Must specify compensation wage or invoice.price"
(the spec's `UnresolvableFieldError("price")`), the configuration is
untouched, and the remote `create_invoice` is never invoked (empty remote
trace). -/
theorem price_unresolvable_aborts (cfg : HourlyCfg) (labor : Labor)
    (u : String) (comp : Compensation) (fs : String → Option String)
    (ap : String → String) (uc : String) (ci : InvoiceCfg → InvoiceResult)
    (hp : cfg.invoice.btcpay.invoice.price = none)
    (hw : comp.wage = none) :
    get_btcpay_invoice cfg labor u (some comp) fs ap uc ci =
      (Except.error
        (RunExit.ioError "Must specify compensation wage or invoice.price"),
        cfg, []) := by
  rw [get_btcpay_invoice_some,
    resolve_price_unresolvable cfg.invoice.btcpay.invoice comp
      (get_hours_worked labor) hp hw]

/-- C3 witness: a concrete configuration with neither `invoice.price` nor
`compensation.wage` set fails with the price error and makes no remote
call. -/
theorem price_unresolvable_aborts_witness :
    (⟨⟨⟨"h", ⟨some "t"⟩, "k.pem", false, ⟨none, some "USD", none⟩⟩⟩⟩ :
      HourlyCfg).invoice.btcpay.invoice.price = none ∧
    (⟨none, some "USD"⟩ : Compensation).wage = none ∧
    get_btcpay_invoice
        ⟨⟨⟨"h", ⟨some "t"⟩, "k.pem", false, ⟨none, some "USD", none⟩⟩⟩⟩
        ⟨5, "d"⟩ "alice" (some ⟨none, some "USD"⟩) (fun _ => none) id
        "yes" (fun _ => ⟨[]⟩) =
      (Except.error
        (RunExit.ioError "Must specify compensation wage or invoice.price"),
        ⟨⟨⟨"h", ⟨some "t"⟩, "k.pem", false, ⟨none, some "USD", none⟩⟩⟩⟩,
        []) :=
  ⟨rfl, rfl, price_unresolvable_aborts
    ⟨⟨⟨"h", ⟨some "t"⟩, "k.pem", false, ⟨none, some "USD", none⟩⟩⟩⟩
    ⟨5, "d"⟩ "alice" ⟨none, some "USD"⟩ (fun _ => none) id
    "yes" (fun _ => ⟨[]⟩) rfl rfl⟩

/-- C4 counterexample: with `invoice.price`, `compensation.wage`,
`invoice.currency` and `compensation.currency` all unset, resolution fails
with the *price* error, not the `UnresolvableFieldError("currency")` the
claim requires for every input with both currency sources unset: price is
resolved first, so its failure pre-empts the currency failure. -/
theorem currency_error_preempted_counterexample :
    (get_btcpay_invoice
        ⟨⟨⟨"h", ⟨some "t"⟩, "k.pem", false, ⟨none, none, none⟩⟩⟩⟩
        ⟨5, "d"⟩ "alice" (some ⟨none, none⟩) (fun _ => none) id "yes"
        (fun _ => ⟨[]⟩)).1 =
      Except.error
        (RunExit.ioError "Must specify compensation wage or invoice.price") ∧
    RunExit.ioError "Must specify compensation wage or invoice.price" ≠
      RunExit.ioError
        "Must specify invoice.currency (e.g. USD, BTC) or compensation currency" :=
  ⟨rfl, by decide⟩

/-- C4 amended: provided the price field is resolvable (explicit
`invoice.price`, or `compensation.wage` set), the resolved currency is the
explicit `invoice.currency` if set, else `compensation.currency` if set,
and if both are unset the run fails with the currency `IOError` (the
spec's `UnresolvableFieldError("currency")`) and no remote call is made.
(When the price is also unresolvable, the price error fires first.) -/
theorem currency_precedence (cfg : HourlyCfg) (labor : Labor) (u : String)
    (comp : Compensation) (fs : String → Option String)
    (ap : String → String) (uc : String) (ci : InvoiceCfg → InvoiceResult)
    (hpr : cfg.invoice.btcpay.invoice.price ≠ none ∨ comp.wage ≠ none) :
    (∀ c, cfg.invoice.btcpay.invoice.currency = some c →
      (get_btcpay_invoice cfg labor u (some comp) fs ap uc
          ci).2.1.invoice.btcpay.invoice.currency = some c) ∧
    (cfg.invoice.btcpay.invoice.currency = none →
      ∀ cc, comp.currency = some cc →
        (get_btcpay_invoice cfg labor u (some comp) fs ap uc
            ci).2.1.invoice.btcpay.invoice.currency = some cc) ∧
    (cfg.invoice.btcpay.invoice.currency = none → comp.currency = none →
      (get_btcpay_invoice cfg labor u (some comp) fs ap uc ci).1 =
        Except.error
          (RunExit.ioError
            "Must specify invoice.currency (e.g. USD, BTC) or compensation currency") ∧
      (get_btcpay_invoice cfg labor u (some comp) fs ap uc ci).2.2 = []) := by
  obtain ⟨inv1, h1, hcur1⟩ := resolve_price_ok_of_resolvable
    cfg.invoice.btcpay.invoice comp (get_hours_worked labor) hpr
  have hcur2 : (resolve_itemDesc inv1 labor).currency =
      cfg.invoice.btcpay.invoice.currency := by
    rw [resolve_itemDesc_currency]; exact hcur1
  refine ⟨?_, ?_, ?_⟩
  · intro c hc
    have h3 := resolve_currency_of_explicit (resolve_itemDesc inv1 labor)
      comp c (hcur2.trans hc)
    rw [get_btcpay_invoice_currency_ok cfg labor u comp fs ap uc ci inv1 _ h1 h3]
    split
    · rw [set_invoice_get]; exact hcur2.trans hc
    · rw [set_invoice_get]; exact hcur2.trans hc
  · intro hc cc hcc
    have h3 := resolve_currency_of_comp (resolve_itemDesc inv1 labor)
      comp cc (hcur2.trans hc) hcc
    rw [get_btcpay_invoice_currency_ok cfg labor u comp fs ap uc ci inv1 _ h1 h3]
    split
    · rw [set_invoice_get]
    · rw [set_invoice_get]
  · intro hc hcc
    have h3 := resolve_currency_unresolvable (resolve_itemDesc inv1 labor)
      comp (hcur2.trans hc) hcc
    rw [get_btcpay_invoice_currency_err cfg labor u comp fs ap uc ci inv1 _ h1 h3]
    exact ⟨rfl, rfl⟩

/-- C4 witness: with an explicit price and both currency sources unset, the
run fails with the currency error and makes no remote call. -/
theorem currency_precedence_witness :
    ((⟨⟨⟨"h", ⟨some "t"⟩, "k.pem", false, ⟨some 1, none, none⟩⟩⟩⟩ :
        HourlyCfg).invoice.btcpay.invoice.price ≠ none ∨
      (⟨none, none⟩ : Compensation).wage ≠ none) ∧
    ((∀ c, (⟨⟨⟨"h", ⟨some "t"⟩, "k.pem", false, ⟨some 1, none, none⟩⟩⟩⟩ :
        HourlyCfg).invoice.btcpay.invoice.currency = some c →
      (get_btcpay_invoice
          ⟨⟨⟨"h", ⟨some "t"⟩, "k.pem", false, ⟨some 1, none, none⟩⟩⟩⟩
          ⟨5, "d"⟩ "alice" (some ⟨none, none⟩) (fun _ => none) id "yes"
          (fun _ => ⟨[]⟩)).2.1.invoice.btcpay.invoice.currency = some c) ∧
    ((⟨⟨⟨"h", ⟨some "t"⟩, "k.pem", false, ⟨some 1, none, none⟩⟩⟩⟩ :
        HourlyCfg).invoice.btcpay.invoice.currency = none →
      ∀ cc, (⟨none, none⟩ : Compensation).currency = some cc →
        (get_btcpay_invoice
            ⟨⟨⟨"h", ⟨some "t"⟩, "k.pem", false, ⟨some 1, none, none⟩⟩⟩⟩
            ⟨5, "d"⟩ "alice" (some ⟨none, none⟩) (fun _ => none) id "yes"
            (fun _ => ⟨[]⟩)).2.1.invoice.btcpay.invoice.currency = some cc) ∧
    ((⟨⟨⟨"h", ⟨some "t"⟩, "k.pem", false, ⟨some 1, none, none⟩⟩⟩⟩ :
        HourlyCfg).invoice.btcpay.invoice.currency = none →
      (⟨none, none⟩ : Compensation).currency = none →
      (get_btcpay_invoice
          ⟨⟨⟨"h", ⟨some "t"⟩, "k.pem", false, ⟨some 1, none, none⟩⟩⟩⟩
          ⟨5, "d"⟩ "alice" (some ⟨none, none⟩) (fun _ => none) id "yes"
          (fun _ => ⟨[]⟩)).1 =
        Except.error
          (RunExit.ioError
            "Must specify invoice.currency (e.g. USD, BTC) or compensation currency") ∧
      (get_btcpay_invoice
          ⟨⟨⟨"h", ⟨some "t"⟩, "k.pem", false, ⟨some 1, none, none⟩⟩⟩⟩
          ⟨5, "d"⟩ "alice" (some ⟨none, none⟩) (fun _ => none) id "yes"
          (fun _ => ⟨[]⟩)).2.2 = [])) :=
  ⟨Or.inl (by decide), currency_precedence
    ⟨⟨⟨"h", ⟨some "t"⟩, "k.pem", false, ⟨some 1, none, none⟩⟩⟩⟩
    ⟨5, "d"⟩ "alice" ⟨none, none⟩ (fun _ => none) id "yes"
    (fun _ => ⟨[]⟩) (Or.inl (by decide))⟩

/-- C5 counterexample: declining the confirmation prompt is not free of
observable state change: resolution has already mutated the configuration
tree in place.  Concretely, with `invoice.price` unset, 5 hours worked and
`wage = 20`, answering "n" terminates with `sys.exit` and no remote call —
but the configuration's price field, `none` on entry, now holds the
resolved product. -/
theorem decline_mutates_config_counterexample :
    (⟨⟨⟨"h", ⟨some "t"⟩, "k.pem", false, ⟨none, none, none⟩⟩⟩⟩ :
      HourlyCfg).invoice.btcpay.invoice.price = none ∧
    (get_btcpay_invoice
        ⟨⟨⟨"h", ⟨some "t"⟩, "k.pem", false, ⟨none, none, none⟩⟩⟩⟩
        ⟨5, "d"⟩ "alice" (some ⟨some 20, some "USD"⟩) (fun _ => none) id
        "n" (fun _ => ⟨[]⟩)).1 = Except.error RunExit.sysExit ∧
    (get_btcpay_invoice
        ⟨⟨⟨"h", ⟨some "t"⟩, "k.pem", false, ⟨none, none, none⟩⟩⟩⟩
        ⟨5, "d"⟩ "alice" (some ⟨some 20, some "USD"⟩) (fun _ => none) id
        "n" (fun _ => ⟨[]⟩)).2.2 = [] ∧
    (get_btcpay_invoice
        ⟨⟨⟨"h", ⟨some "t"⟩, "k.pem", false, ⟨none, none, none⟩⟩⟩⟩
        ⟨5, "d"⟩ "alice" (some ⟨some 20, some "USD"⟩) (fun _ => none) id
        "n" (fun _ => ⟨[]⟩)).2.1.invoice.btcpay.invoice.price =
      some ((5 : ℚ) * 20) ∧
    ((5 : ℚ) * 20 = 100) :=
  ⟨rfl, rfl, rfl, rfl, by norm_num⟩

/-- C5 amended: declining the confirmation prompt (any answer whose
lower-casing is not "yes") after a successful resolution terminates the
run with `sys.exit` and zero invocations of the remote `create_invoice`
(empty remote-call trace); however, the configuration tree has by then
already been mutated with the resolved fields, so "no observable state
change" does not hold of the in-memory configuration. -/
theorem decline_no_remote_call (cfg : HourlyCfg) (labor : Labor) (u : String)
    (comp : Compensation) (fs : String → Option String)
    (ap : String → String) (uc : String) (ci : InvoiceCfg → InvoiceResult)
    (hpr : cfg.invoice.btcpay.invoice.price ≠ none ∨ comp.wage ≠ none)
    (hcr : cfg.invoice.btcpay.invoice.currency ≠ none ∨ comp.currency ≠ none)
    (huc : pyLower uc ≠ "yes") :
    (get_btcpay_invoice cfg labor u (some comp) fs ap uc ci).1 =
      Except.error RunExit.sysExit ∧
    (get_btcpay_invoice cfg labor u (some comp) fs ap uc ci).2.2 = [] := by
  obtain ⟨inv1, h1, hcur1⟩ := resolve_price_ok_of_resolvable
    cfg.invoice.btcpay.invoice comp (get_hours_worked labor) hpr
  have hcur2 : (resolve_itemDesc inv1 labor).currency =
      cfg.invoice.btcpay.invoice.currency := by
    rw [resolve_itemDesc_currency]; exact hcur1
  have h3 : ∃ inv3, resolve_currency (resolve_itemDesc inv1 labor) comp =
      Except.ok inv3 := by
    rcases hc : cfg.invoice.btcpay.invoice.currency with _ | c
    · rcases hcc : comp.currency with _ | cc
      · simp [hc, hcc] at hcr
      · exact ⟨_, resolve_currency_of_comp (resolve_itemDesc inv1 labor)
          comp cc (hcur2.trans hc) hcc⟩
    · exact ⟨_, resolve_currency_of_explicit (resolve_itemDesc inv1 labor)
        comp c (hcur2.trans hc)⟩
  obtain ⟨inv3, h3⟩ := h3
  rw [get_btcpay_invoice_currency_ok cfg labor u comp fs ap uc ci inv1 inv3 h1 h3]
  rw [if_pos huc]
  exact ⟨rfl, rfl⟩

/-- C5 witness: declining with "n" on a fully resolvable configuration
exits via `sys.exit` with an empty remote-call trace. -/
theorem decline_no_remote_call_witness :
    ((⟨⟨⟨"h", ⟨some "t"⟩, "k.pem", false, ⟨none, none, none⟩⟩⟩⟩ :
        HourlyCfg).invoice.btcpay.invoice.price ≠ none ∨
      (⟨some 20, some "USD"⟩ : Compensation).wage ≠ none) ∧
    ((⟨⟨⟨"h", ⟨some "t"⟩, "k.pem", false, ⟨none, none, none⟩⟩⟩⟩ :
        HourlyCfg).invoice.btcpay.invoice.currency ≠ none ∨
      (⟨some 20, some "USD"⟩ : Compensation).currency ≠ none) ∧
    pyLower "n" ≠ "yes" ∧
    ((get_btcpay_invoice
        ⟨⟨⟨"h", ⟨some "t"⟩, "k.pem", false, ⟨none, none, none⟩⟩⟩⟩
        ⟨5, "d"⟩ "alice" (some ⟨some 20, some "USD"⟩) (fun _ => none) id
        "n" (fun _ => ⟨[]⟩)).1 = Except.error RunExit.sysExit ∧
    (get_btcpay_invoice
        ⟨⟨⟨"h", ⟨some "t"⟩, "k.pem", false, ⟨none, none, none⟩⟩⟩⟩
        ⟨5, "d"⟩ "alice" (some ⟨some 20, some "USD"⟩) (fun _ => none) id
        "n" (fun _ => ⟨[]⟩)).2.2 = []) :=
  ⟨Or.inr (by decide), Or.inr (by decide), by decide,
    decline_no_remote_call
      ⟨⟨⟨"h", ⟨some "t"⟩, "k.pem", false, ⟨none, none, none⟩⟩⟩⟩
      ⟨5, "d"⟩ "alice" ⟨some 20, some "USD"⟩ (fun _ => none) id
      "n" (fun _ => ⟨[]⟩) (Or.inr (by decide)) (Or.inr (by decide))
      (by decide)⟩

/-! ## Helper lemmas about the Pairing Controller -/

theorem generate_key_step_no_gen (cfg : HourlyCfg) (inputs : InitInputs)
    (fs : String → Option String) (gen : String)
    (h : pyLower inputs.generate_privkey ≠ "yes") :
    generate_key_step cfg inputs fs gen = (cfg, fs, false) := by
  unfold generate_key_step; rw [if_neg h]

theorem generate_key_step_abort (cfg : HourlyCfg) (inputs : InitInputs)
    (fs : String → Option String) (gen : String)
    (hgen : pyLower inputs.generate_privkey = "yes")
    (hsave : inputs.save_privkey = "yes")
    (hexists : (fs (if inputs.pem_file.length = 0 then "btcpayserver.pem"
        else inputs.pem_file)).isSome) :
    generate_key_step cfg inputs fs gen =
      ({ cfg with invoice.btcpay.pem := gen }, fs, true) := by
  simp [generate_key_step, hgen, hsave, hexists]

theorem generate_key_step_host (cfg : HourlyCfg) (inputs : InitInputs)
    (fs : String → Option String) (gen : String) :
    (generate_key_step cfg inputs fs gen).1.invoice.btcpay.host =
      cfg.invoice.btcpay.host := by
  unfold generate_key_step
  dsimp only
  repeat' split
  all_goals rfl

/-- `initialize_btcpay` on empty host input: the empty host is committed
into the configuration, then the run exits. -/
theorem initialize_btcpay_empty_host (cfg : HourlyCfg) (inputs : InitInputs)
    (fs : String → Option String) (gen : String)
    (pc : String → Tokens) (pf : BtcpayCfg → String)
    (h : inputs.host.length = 0) :
    initialize_btcpay cfg inputs fs gen pc pf =
      ⟨some InitExit.emptyHost,
        { cfg with invoice.btcpay.host := inputs.host }, fs, []⟩ := by
  simp [initialize_btcpay, h]

/-- `initialize_btcpay` on non-empty host input, written as the branch
cascade on the key-generation step, the pairing-code length and the
save-configuration answer. -/
theorem initialize_btcpay_nonempty (cfg : HourlyCfg) (inputs : InitInputs)
    (fs : String → Option String) (gen : String)
    (pc : String → Tokens) (pf : BtcpayCfg → String)
    (h : inputs.host.length ≠ 0) :
    initialize_btcpay cfg inputs fs gen pc pf =
      (if (generate_key_step { cfg with invoice.btcpay.host := inputs.host }
          inputs fs gen).2.2 then
        ⟨some InitExit.fileExists,
          (generate_key_step { cfg with invoice.btcpay.host := inputs.host }
            inputs fs gen).1,
          (generate_key_step { cfg with invoice.btcpay.host := inputs.host }
            inputs fs gen).2.1, []⟩
      else if inputs.pairing_code.length ≠ 7 then
        ⟨some InitExit.invalidPairingCode,
          (generate_key_step { cfg with invoice.btcpay.host := inputs.host }
            inputs fs gen).1,
          (generate_key_step { cfg with invoice.btcpay.host := inputs.host }
            inputs fs gen).2.1, []⟩
      else if pyLower inputs.save_configuration = "yes" then
        ⟨none,
          { (generate_key_step { cfg with invoice.btcpay.host := inputs.host }
              inputs fs gen).1 with
            invoice.btcpay.tokens := pc inputs.pairing_code },
          fsWrite
            ((generate_key_step { cfg with invoice.btcpay.host := inputs.host }
              inputs fs gen).2.1)
            inputs.btcpay_filename
            (pf ({ (generate_key_step
                { cfg with invoice.btcpay.host := inputs.host }
                inputs fs gen).1 with
              invoice.btcpay.tokens := pc inputs.pairing_code
              }).invoice.btcpay),
          [inputs.pairing_code]⟩
      else
        ⟨none,
          { (generate_key_step { cfg with invoice.btcpay.host := inputs.host }
              inputs fs gen).1 with
            invoice.btcpay.tokens := pc inputs.pairing_code },
          (generate_key_step { cfg with invoice.btcpay.host := inputs.host }
            inputs fs gen).2.1,
          [inputs.pairing_code]⟩) := by
  simp [initialize_btcpay, h]

/-! ## Claim theorems: Pairing Controller -/

/-- C6: in a run that reaches the pairing-code prompt (non-empty host, no
abort in the key-generation step), a pairing code whose length is not 7
ends the run with the "Pairing code is not 7 digits!" `sys.exit` (the
spec's `InvalidPairingCodeError`) and `pair_client` is never called; a
code of length exactly 7 is sent to `pair_client` (it is the one element
of the pairing trace). -/
theorem pairing_code_length_gate (cfg : HourlyCfg) (inputs : InitInputs)
    (fs : String → Option String) (gen : String) (pc : String → Tokens)
    (pf : BtcpayCfg → String) (hhost : inputs.host.length ≠ 0)
    (hstep : (generate_key_step { cfg with invoice.btcpay.host := inputs.host }
        inputs fs gen).2.2 = false) :
    (inputs.pairing_code.length ≠ 7 →
      (initialize_btcpay cfg inputs fs gen pc pf).exit =
        some InitExit.invalidPairingCode ∧
      (initialize_btcpay cfg inputs fs gen pc pf).pairCalls = []) ∧
    (inputs.pairing_code.length = 7 →
      (initialize_btcpay cfg inputs fs gen pc pf).pairCalls =
        [inputs.pairing_code]) := by
  rw [initialize_btcpay_nonempty cfg inputs fs gen pc pf hhost, hstep]
  rw [if_neg Bool.false_ne_true]
  constructor
  · intro h7
    rw [if_pos h7]
    exact ⟨rfl, rfl⟩
  · intro h7
    rw [if_neg (not_not_intro h7)]
    split
    · rfl
    · rfl

/-- C6 witness: host "h", no key generation, pairing code "123" (length 3):
the run exits with the invalid-pairing-code exit and an empty pairing
trace. -/
theorem pairing_code_length_gate_witness :
    ("h" : String).length ≠ 0 ∧
    (generate_key_step
      ⟨⟨⟨"h", ⟨some "t"⟩, "k.pem", false, ⟨none, none, none⟩⟩⟩⟩
      ⟨"h", "n", "n", "", "123", "n", ""⟩ (fun _ => none) "PEM").2.2 =
      false ∧
    ((("123" : String).length ≠ 7 →
      (initialize_btcpay
        ⟨⟨⟨"old", ⟨some "t"⟩, "k.pem", false, ⟨none, none, none⟩⟩⟩⟩
        ⟨"h", "n", "n", "", "123", "n", ""⟩ (fun _ => none) "PEM"
        (fun _ => ⟨some "tok"⟩) (fun _ => "cfg")).exit =
          some InitExit.invalidPairingCode ∧
      (initialize_btcpay
        ⟨⟨⟨"old", ⟨some "t"⟩, "k.pem", false, ⟨none, none, none⟩⟩⟩⟩
        ⟨"h", "n", "n", "", "123", "n", ""⟩ (fun _ => none) "PEM"
        (fun _ => ⟨some "tok"⟩) (fun _ => "cfg")).pairCalls = []) ∧
    (("123" : String).length = 7 →
      (initialize_btcpay
        ⟨⟨⟨"old", ⟨some "t"⟩, "k.pem", false, ⟨none, none, none⟩⟩⟩⟩
        ⟨"h", "n", "n", "", "123", "n", ""⟩ (fun _ => none) "PEM"
        (fun _ => ⟨some "tok"⟩) (fun _ => "cfg")).pairCalls = ["123"])) :=
  ⟨by decide, rfl, pairing_code_length_gate
    ⟨⟨⟨"old", ⟨some "t"⟩, "k.pem", false, ⟨none, none, none⟩⟩⟩⟩
    ⟨"h", "n", "n", "", "123", "n", ""⟩ (fun _ => none) "PEM"
    (fun _ => ⟨some "tok"⟩) (fun _ => "cfg") (by decide) rfl⟩

/-- C7: when the operator generates a key, asks to save it, and the chosen
path (after the `btcpayserver.pem` blank default) already holds a file,
the run ends with the "File already exists! Exiting." `sys.exit` (the
spec's `FileExistsError`), the filesystem is left untouched at every path
(in particular the existing file's contents), and no pairing call is ever
made. -/
theorem existing_key_file_never_overwritten (cfg : HourlyCfg)
    (inputs : InitInputs) (fs : String → Option String) (gen : String)
    (pc : String → Tokens) (pf : BtcpayCfg → String)
    (hhost : inputs.host.length ≠ 0)
    (hgen : pyLower inputs.generate_privkey = "yes")
    (hsave : inputs.save_privkey = "yes")
    (hexists : (fs (if inputs.pem_file.length = 0 then "btcpayserver.pem"
        else inputs.pem_file)).isSome) :
    (initialize_btcpay cfg inputs fs gen pc pf).exit =
      some InitExit.fileExists ∧
    (∀ q, (initialize_btcpay cfg inputs fs gen pc pf).fs q = fs q) ∧
    (initialize_btcpay cfg inputs fs gen pc pf).pairCalls = [] := by
  rw [initialize_btcpay_nonempty cfg inputs fs gen pc pf hhost,
    generate_key_step_abort { cfg with invoice.btcpay.host := inputs.host }
      inputs fs gen hgen hsave hexists]
  exact ⟨rfl, fun q => rfl, rfl⟩

/-- C7 witness: a file already sits at the default path
`btcpayserver.pem`; generating and saving a key aborts with the
file-exists exit, leaves the filesystem untouched, and pairs nothing. -/
theorem existing_key_file_never_overwritten_witness :
    ("h" : String).length ≠ 0 ∧
    pyLower "Yes" = "yes" ∧
    ("yes" : String) = "yes" ∧
    ((fun p => if p = "btcpayserver.pem" then some "OLDKEY" else none)
      (if ("" : String).length = 0 then "btcpayserver.pem" else "")).isSome ∧
    ((initialize_btcpay
        ⟨⟨⟨"old", ⟨some "t"⟩, "k.pem", false, ⟨none, none, none⟩⟩⟩⟩
        ⟨"h", "Yes", "yes", "", "1234567", "n", ""⟩
        (fun p => if p = "btcpayserver.pem" then some "OLDKEY" else none)
        "PEM" (fun _ => ⟨some "tok"⟩) (fun _ => "cfg")).exit =
      some InitExit.fileExists ∧
    (∀ q, (initialize_btcpay
        ⟨⟨⟨"old", ⟨some "t"⟩, "k.pem", false, ⟨none, none, none⟩⟩⟩⟩
        ⟨"h", "Yes", "yes", "", "1234567", "n", ""⟩
        (fun p => if p = "btcpayserver.pem" then some "OLDKEY" else none)
        "PEM" (fun _ => ⟨some "tok"⟩) (fun _ => "cfg")).fs q =
      (fun p => if p = "btcpayserver.pem" then some "OLDKEY" else none) q) ∧
    (initialize_btcpay
        ⟨⟨⟨"old", ⟨some "t"⟩, "k.pem", false, ⟨none, none, none⟩⟩⟩⟩
        ⟨"h", "Yes", "yes", "", "1234567", "n", ""⟩
        (fun p => if p = "btcpayserver.pem" then some "OLDKEY" else none)
        "PEM" (fun _ => ⟨some "tok"⟩) (fun _ => "cfg")).pairCalls = []) :=
  ⟨by decide, by decide, rfl, rfl, existing_key_file_never_overwritten
    ⟨⟨⟨"old", ⟨some "t"⟩, "k.pem", false, ⟨none, none, none⟩⟩⟩⟩
    ⟨"h", "Yes", "yes", "", "1234567", "n", ""⟩
    (fun p => if p = "btcpayserver.pem" then some "OLDKEY" else none)
    "PEM" (fun _ => ⟨some "tok"⟩) (fun _ => "cfg")
    (by decide) (by decide) rfl rfl⟩

/-- C8 counterexample: the host is assigned into the configuration before
its emptiness is checked, so an empty host input does change the
configuration: starting from host "old.example", the run exits with the
empty-host exit and the committed host is now "", not "old.example". -/
theorem empty_host_still_committed_counterexample :
    (initialize_btcpay
        ⟨⟨⟨"old.example", ⟨some "t"⟩, "k.pem", false, ⟨none, none, none⟩⟩⟩⟩
        ⟨"", "n", "n", "", "1234567", "n", ""⟩ (fun _ => none) "PEM"
        (fun _ => ⟨some "tok"⟩) (fun _ => "cfg")).exit =
      some InitExit.emptyHost ∧
    (initialize_btcpay
        ⟨⟨⟨"old.example", ⟨some "t"⟩, "k.pem", false, ⟨none, none, none⟩⟩⟩⟩
        ⟨"", "n", "n", "", "1234567", "n", ""⟩ (fun _ => none) "PEM"
        (fun _ => ⟨some "tok"⟩) (fun _ => "cfg")).cfg.invoice.btcpay.host =
      "" ∧
    (⟨⟨⟨"old.example", ⟨some "t"⟩, "k.pem", false, ⟨none, none, none⟩⟩⟩⟩ :
      HourlyCfg).invoice.btcpay.host = "old.example" ∧
    ("old.example" : String) ≠ "" :=
  ⟨rfl, rfl, rfl, by decide⟩

/-- C8 amended: the host prompt's answer is always committed into the
configuration — before the emptiness check; on empty input the run then
terminates with the empty-host exit, no pairing call and no file writes
(the only configuration change being the committed empty host). -/
theorem host_committed_before_check (cfg : HourlyCfg) (inputs : InitInputs)
    (fs : String → Option String) (gen : String) (pc : String → Tokens)
    (pf : BtcpayCfg → String) :
    (initialize_btcpay cfg inputs fs gen pc pf).cfg.invoice.btcpay.host =
      inputs.host ∧
    (inputs.host.length = 0 →
      (initialize_btcpay cfg inputs fs gen pc pf).exit =
        some InitExit.emptyHost ∧
      (initialize_btcpay cfg inputs fs gen pc pf).pairCalls = [] ∧
      (∀ q, (initialize_btcpay cfg inputs fs gen pc pf).fs q = fs q) ∧
      (initialize_btcpay cfg inputs fs gen pc pf).cfg =
        { cfg with invoice.btcpay.host := inputs.host }) := by
  by_cases h : inputs.host.length = 0
  · rw [initialize_btcpay_empty_host cfg inputs fs gen pc pf h]
    exact ⟨rfl, fun _ => ⟨rfl, rfl, fun q => rfl, rfl⟩⟩
  · rw [initialize_btcpay_nonempty cfg inputs fs gen pc pf h]
    refine ⟨?_, fun h0 => absurd h0 h⟩
    split
    · exact generate_key_step_host
        { cfg with invoice.btcpay.host := inputs.host } inputs fs gen
    · split
      · exact generate_key_step_host
          { cfg with invoice.btcpay.host := inputs.host } inputs fs gen
      · split
        · exact generate_key_step_host
            { cfg with invoice.btcpay.host := inputs.host } inputs fs gen
        · exact generate_key_step_host
            { cfg with invoice.btcpay.host := inputs.host } inputs fs gen

/-- C8 witness: empty host input on a configuration whose host was
"old.example": the host "" is committed and the run terminates with no
pairing call and no file writes. -/
theorem host_committed_before_check_witness :
    (initialize_btcpay
        ⟨⟨⟨"old.example", ⟨some "t"⟩, "k.pem", false, ⟨none, none, none⟩⟩⟩⟩
        ⟨"", "n", "n", "", "1234567", "n", ""⟩ (fun _ => none) "PEM"
        (fun _ => ⟨some "tok"⟩) (fun _ => "cfg")).cfg.invoice.btcpay.host =
      "" ∧
    (("" : String).length = 0 →
      (initialize_btcpay
          ⟨⟨⟨"old.example", ⟨some "t"⟩, "k.pem", false, ⟨none, none, none⟩⟩⟩⟩
          ⟨"", "n", "n", "", "1234567", "n", ""⟩ (fun _ => none) "PEM"
          (fun _ => ⟨some "tok"⟩) (fun _ => "cfg")).exit =
        some InitExit.emptyHost ∧
      (initialize_btcpay
          ⟨⟨⟨"old.example", ⟨some "t"⟩, "k.pem", false, ⟨none, none, none⟩⟩⟩⟩
          ⟨"", "n", "n", "", "1234567", "n", ""⟩ (fun _ => none) "PEM"
          (fun _ => ⟨some "tok"⟩) (fun _ => "cfg")).pairCalls = [] ∧
      (∀ q, (initialize_btcpay
          ⟨⟨⟨"old.example", ⟨some "t"⟩, "k.pem", false, ⟨none, none, none⟩⟩⟩⟩
          ⟨"", "n", "n", "", "1234567", "n", ""⟩ (fun _ => none) "PEM"
          (fun _ => ⟨some "tok"⟩) (fun _ => "cfg")).fs q =
        (fun _ => (none : Option String)) q) ∧
      (initialize_btcpay
          ⟨⟨⟨"old.example", ⟨some "t"⟩, "k.pem", false, ⟨none, none, none⟩⟩⟩⟩
          ⟨"", "n", "n", "", "1234567", "n", ""⟩ (fun _ => none) "PEM"
          (fun _ => ⟨some "tok"⟩) (fun _ => "cfg")).cfg =
        { (⟨⟨⟨"old.example", ⟨some "t"⟩, "k.pem", false,
            ⟨none, none, none⟩⟩⟩⟩ : HourlyCfg) with
          invoice.btcpay.host := "" }) :=
  host_committed_before_check
    ⟨⟨⟨"old.example", ⟨some "t"⟩, "k.pem", false, ⟨none, none, none⟩⟩⟩⟩
    ⟨"", "n", "n", "", "1234567", "n", ""⟩ (fun _ => none) "PEM"
    (fun _ => ⟨some "tok"⟩) (fun _ => "cfg")

/-- C9 (code bug): the save-configuration prompt promises "leave blank for
btcpay.yaml", but no blank default is applied (unlike the key-filename
prompt): with a blank configuration filename the run writes to the
literal empty path (in Python, `open('', 'w')` fails at runtime) and
`btcpay.yaml` is never created. -/
theorem blank_config_filename_not_defaulted :
    (initialize_btcpay
        ⟨⟨⟨"old", ⟨some "t"⟩, "k.pem", false, ⟨none, none, none⟩⟩⟩⟩
        ⟨"h", "n", "n", "", "1234567", "yes", ""⟩ (fun _ => none) "PEM"
        (fun _ => ⟨some "tok"⟩) (fun _ => "serialized")).exit = none ∧
    (initialize_btcpay
        ⟨⟨⟨"old", ⟨some "t"⟩, "k.pem", false, ⟨none, none, none⟩⟩⟩⟩
        ⟨"h", "n", "n", "", "1234567", "yes", ""⟩ (fun _ => none) "PEM"
        (fun _ => ⟨some "tok"⟩) (fun _ => "serialized")).fs "btcpay.yaml" =
      none ∧
    (initialize_btcpay
        ⟨⟨⟨"old", ⟨some "t"⟩, "k.pem", false, ⟨none, none, none⟩⟩⟩⟩
        ⟨"h", "n", "n", "", "1234567", "yes", ""⟩ (fun _ => none) "PEM"
        (fun _ => ⟨some "tok"⟩) (fun _ => "serialized")).fs "" =
      some "serialized" ∧
    (initialize_btcpay
        ⟨⟨⟨"old", ⟨some "t"⟩, "k.pem", false, ⟨none, none, none⟩⟩⟩⟩
        ⟨"h", "n", "n", "", "1234567", "yes", ""⟩ (fun _ => none) "PEM"
        (fun _ => ⟨some "tok"⟩) (fun _ => "serialized")).pairCalls =
      ["1234567"] :=
  ⟨rfl, rfl, rfl, rfl⟩

/-! ## Claim theorem: client construction -/

/-- C10: `get_btcpay_client` builds the client from the file contents at
the absolutized `invoice.btcpay.pem` path whenever such a file exists
(file contents override the configured pem string); with no file there,
the configured pem string is used verbatim; and the configuration —
including its pem field — is returned unmodified in either case. -/
theorem client_pem_file_overrides (cfg : HourlyCfg)
    (fs : String → Option String) (absPath : String → String) :
    (∀ contents, fs (absPath cfg.invoice.btcpay.pem) = some contents →
      (get_btcpay_client cfg fs absPath).1.pem = contents) ∧
    (fs (absPath cfg.invoice.btcpay.pem) = none →
      (get_btcpay_client cfg fs absPath).1.pem = cfg.invoice.btcpay.pem) ∧
    (get_btcpay_client cfg fs absPath).2 = cfg := by
  refine ⟨?_, ?_, rfl⟩
  · intro contents h
    simp [get_btcpay_client, h]
  · intro h
    simp [get_btcpay_client, h]

/-- C10 witness: with a filesystem holding "FILEPEM" at the absolutized
path of the configured pem "k.pem", the client's pem is the file's
contents and the configuration is unchanged; the same run with an empty
filesystem is covered by the second conjunct vacuously here. -/
theorem client_pem_file_overrides_witness :
    ((∀ contents,
      (fun p => if p = "abs/k.pem" then some "FILEPEM" else none)
          ((fun p => String.append "abs/" p)
            (⟨⟨⟨"h", ⟨some "t"⟩, "k.pem", false, ⟨none, none, none⟩⟩⟩⟩ :
              HourlyCfg).invoice.btcpay.pem) = some contents →
      (get_btcpay_client
          ⟨⟨⟨"h", ⟨some "t"⟩, "k.pem", false, ⟨none, none, none⟩⟩⟩⟩
          (fun p => if p = "abs/k.pem" then some "FILEPEM" else none)
          (fun p => String.append "abs/" p)).1.pem = contents) ∧
    ((fun p => if p = "abs/k.pem" then some "FILEPEM" else none)
        ((fun p => String.append "abs/" p)
          (⟨⟨⟨"h", ⟨some "t"⟩, "k.pem", false, ⟨none, none, none⟩⟩⟩⟩ :
            HourlyCfg).invoice.btcpay.pem) = none →
      (get_btcpay_client
          ⟨⟨⟨"h", ⟨some "t"⟩, "k.pem", false, ⟨none, none, none⟩⟩⟩⟩
          (fun p => if p = "abs/k.pem" then some "FILEPEM" else none)
          (fun p => String.append "abs/" p)).1.pem =
        (⟨⟨⟨"h", ⟨some "t"⟩, "k.pem", false, ⟨none, none, none⟩⟩⟩⟩ :
          HourlyCfg).invoice.btcpay.pem) ∧
    (get_btcpay_client
        ⟨⟨⟨"h", ⟨some "t"⟩, "k.pem", false, ⟨none, none, none⟩⟩⟩⟩
        (fun p => if p = "abs/k.pem" then some "FILEPEM" else none)
        (fun p => String.append "abs/" p)).2 =
      ⟨⟨⟨"h", ⟨some "t"⟩, "k.pem", false, ⟨none, none, none⟩⟩⟩⟩) ∧
    (get_btcpay_client
        ⟨⟨⟨"h", ⟨some "t"⟩, "k.pem", false, ⟨none, none, none⟩⟩⟩⟩
        (fun p => if p = "abs/k.pem" then some "FILEPEM" else none)
        (fun p => String.append "abs/" p)).1.pem = "FILEPEM" :=
  ⟨client_pem_file_overrides
    ⟨⟨⟨"h", ⟨some "t"⟩, "k.pem", false, ⟨none, none, none⟩⟩⟩⟩
    (fun p => if p = "abs/k.pem" then some "FILEPEM" else none)
    (fun p => String.append "abs/" p), rfl⟩
